import Mathlib

/-!
Verification of the landmark-to-overlay transform pipeline and the
tracking-session lifecycle of the Gold-AR jewelry try-on application.

The development shallowly embeds the relevant source modules:

* `src/utils/geometry.ts` — pure geometry engine (`computeTransform`,
  `normalizedToPixelCoords`, `radToDeg`, `clamp`, `distance`, `midpoint`);
  JavaScript numbers are modelled as real numbers, `Math.atan2` as the
  standard two-argument arctangent on the reals.
* `src/hooks/useHandTracking.ts` and `src/hooks/useFaceMesh.ts` — the two
  tracking sessions; their observable React state is modelled as a record,
  and each handler (`onResults`, `startTracking`, `stopTracking`, the
  camera `onFrame` callback) as an explicit state-transition function.
  A landmark list is modelled as a total function from indices to points.
* `src/components/ARView.tsx` — the overlay compositor effect, modelled as
  per-jewelry-type functions from the previous overlay transform and the
  current detections to the next overlay transform.
* `src/data/products.ts` — the product catalog records used as inputs.
-/

namespace GoldAR

/-! ## Geometry engine (src/utils/geometry.ts) -/

/-- A 2D point with x and y coordinates, normalized to the unit square by
MediaPipe. Mirrors the `Point` interface. -/
structure Point where
  x : ℝ
  y : ℝ

/-- Transform data for positioning jewelry overlays. Mirrors the
`Transform` interface: `x`, `y` center position, `scale` size multiplier,
`rotationRad` rotation angle in radians. -/
structure Transform where
  x : ℝ
  y : ℝ
  scale : ℝ
  rotationRad : ℝ

/-- The two-argument arctangent, modelling JavaScript `Math.atan2(y, x)`
on real (non-signed-zero) inputs: the angle of the vector `(x, y)` from the
positive x-axis, in `(-pi, pi]`, with `atan2 0 0 = 0`. -/
noncomputable def atan2 (y x : ℝ) : ℝ :=
  if 0 < x then Real.arctan (y / x)
  else if x < 0 then
    (if 0 ≤ y then Real.arctan (y / x) + Real.pi else Real.arctan (y / x) - Real.pi)
  else
    (if 0 < y then Real.pi / 2 else if y < 0 then -(Real.pi / 2) else 0)

/-- `computeTransform(p1, p2)` from geometry.ts: midpoint center, Euclidean
distance as scale, `atan2(dy, dx)` as rotation. -/
noncomputable def computeTransform (p1 p2 : Point) : Transform :=
  let x := (p1.x + p2.x) / 2
  let y := (p1.y + p2.y) / 2
  let dx := p2.x - p1.x
  let dy := p2.y - p1.y
  let scale := Real.sqrt (dx * dx + dy * dy)
  let rotationRad := atan2 dy dx
  { x := x, y := y, scale := scale, rotationRad := rotationRad }

/-- `normalizedToPixelCoords(x, y, width, height)` from geometry.ts. -/
noncomputable def normalizedToPixelCoords (x y width height : ℝ) : ℝ × ℝ :=
  (x * width, y * height)

/-- `radToDeg(radians)` from geometry.ts. -/
noncomputable def radToDeg (radians : ℝ) : ℝ :=
  radians * (180 / Real.pi)

/-- `clamp(value, min, max)` from geometry.ts. -/
noncomputable def clamp (value lo hi : ℝ) : ℝ :=
  min (max value lo) hi

/-- `distance(p1, p2)` from geometry.ts. -/
noncomputable def distance (p1 p2 : Point) : ℝ :=
  let dx := p2.x - p1.x
  let dy := p2.y - p1.y
  Real.sqrt (dx * dx + dy * dy)

/-- `midpoint(p1, p2)` from geometry.ts. -/
noncomputable def midpoint (p1 p2 : Point) : Point :=
  { x := (p1.x + p2.x) / 2, y := (p1.y + p2.y) / 2 }

end GoldAR

namespace GoldAR

/-- C1: `computeTransform(p1, p2)` agrees with the reference definitions:
its x and y are the midpoint of the two points, its scale is their
Euclidean distance, and its rotation is `atan2(dy, dx)` — which is 0 for a
horizontal right-pointing vector, pi/2 for a vertical downward vector
(y grows downward), and pi/4 for the vector from (0,0) to (1,1). -/
theorem computeTransform_spec :
    (∀ p1 p2 : Point,
      (computeTransform p1 p2).x = (midpoint p1 p2).x ∧
      (computeTransform p1 p2).y = (midpoint p1 p2).y ∧
      (computeTransform p1 p2).scale = distance p1 p2 ∧
      (computeTransform p1 p2).rotationRad = atan2 (p2.y - p1.y) (p2.x - p1.x)) ∧
    (∀ p1 p2 : Point, p2.y = p1.y → p1.x < p2.x →
      (computeTransform p1 p2).rotationRad = 0) ∧
    (∀ p1 p2 : Point, p2.x = p1.x → p1.y < p2.y →
      (computeTransform p1 p2).rotationRad = Real.pi / 2) ∧
    (computeTransform ⟨0, 0⟩ ⟨1, 1⟩).rotationRad = Real.pi / 4 := by
  refine ⟨fun p1 p2 => ⟨rfl, rfl, rfl, rfl⟩, ?_, ?_, ?_⟩
  · intro p1 p2 hy hx
    show atan2 (p2.y - p1.y) (p2.x - p1.x) = 0
    have hdy : p2.y - p1.y = 0 := by rw [hy]; ring
    have hdx : 0 < p2.x - p1.x := sub_pos.mpr hx
    rw [hdy]
    unfold atan2
    rw [if_pos hdx, zero_div, Real.arctan_zero]
  · intro p1 p2 hx hy
    show atan2 (p2.y - p1.y) (p2.x - p1.x) = Real.pi / 2
    have hdx : p2.x - p1.x = 0 := by rw [hx]; ring
    have hdy : 0 < p2.y - p1.y := sub_pos.mpr hy
    rw [hdx]
    unfold atan2
    rw [if_neg (lt_irrefl 0), if_neg (lt_irrefl 0), if_pos hdy]
  · show atan2 ((1 : ℝ) - 0) ((1 : ℝ) - 0) = Real.pi / 4
    unfold atan2
    norm_num [Real.arctan_one]

/-- Witness for C1: the generic horizontal and vertical cases instantiated
at concrete vectors. -/
theorem computeTransform_spec_witness :
    ((0 : ℝ) = 0 ∧ (0 : ℝ) < 1 ∧
      (computeTransform ⟨0, 0⟩ ⟨1, 0⟩).rotationRad = 0) ∧
    ((0 : ℝ) = 0 ∧ (0 : ℝ) < 1 ∧
      (computeTransform ⟨0, 0⟩ ⟨0, 1⟩).rotationRad = Real.pi / 2) :=
  ⟨⟨rfl, by norm_num, computeTransform_spec.2.1 ⟨0, 0⟩ ⟨1, 0⟩ rfl (by norm_num)⟩,
   ⟨rfl, by norm_num, computeTransform_spec.2.2.1 ⟨0, 0⟩ ⟨0, 1⟩ rfl (by norm_num)⟩⟩

/-! ## Tracking sessions (src/hooks/useHandTracking.ts, src/hooks/useFaceMesh.ts)

Each hook holds React state `isLoading`, `error`, detections
(`hands` resp. `faces`), `isDetecting`, plus two mutable refs: the
detection-capability instance (`handsRef` resp. `faceMeshRef`, modelled by
a Boolean recording whether it is non-null) and the camera frame pump
(`cameraRef`, likewise a Boolean). Handlers become state-transition
functions on this record. -/

/-- MediaPipe `NormalizedLandmarkList`, modelled as a total map from a
landmark index to its point. -/
def NormalizedLandmarkList : Type := Nat → Point

/-- Handedness label of a detected hand. -/
inductive Handedness where
  | Left : Handedness
  | Right : Handedness
deriving DecidableEq

/-- One detected hand: its landmark list and handedness tag, as in the
`HandLandmarks` interface of useHandTracking.ts. -/
structure HandLandmarks where
  landmarks : NormalizedLandmarkList
  handedness : Handedness

/-- One detected face, as in the `FaceLandmarks` interface of
useFaceMesh.ts. -/
structure FaceLandmarks where
  landmarks : NormalizedLandmarkList

/-- A MediaPipe Hands results object. A missing (`undefined`)
`multiHandLandmarks` is modelled by the empty list, which the handler
treats identically; a missing handedness entry at an index is modelled by
`none`. -/
structure HandResults where
  multiHandLandmarks : List NormalizedLandmarkList
  multiHandedness : List (Option Handedness)

/-- A MediaPipe FaceMesh results object; a missing `multiFaceLandmarks`
is modelled by the empty list. -/
structure FaceResults where
  multiFaceLandmarks : List NormalizedLandmarkList

/-- The expression `results.multiHandedness?.[index]?.label || 'Right'`:
look up the handedness at an index, defaulting to `Right` when the list is
missing, too short, or the entry has no label. -/
def handednessAt (hs : List (Option Handedness)) (i : Nat) : Handedness :=
  (hs.getD i none).getD Handedness.Right

/-- Observable state of the hand-tracking session: the four React state
cells of `useHandTracking`, plus the two refs. -/
structure HandTrackingState where
  isLoading : Bool
  error : Option String
  hands : List HandLandmarks
  isDetecting : Bool
  handsInitialized : Bool
  cameraActive : Bool

/-- Observable state of the face-tracking session: the four React state
cells of `useFaceMesh`, plus the two refs. -/
structure FaceTrackingState where
  isLoading : Bool
  error : Option String
  faces : List FaceLandmarks
  isDetecting : Bool
  faceMeshInitialized : Bool
  cameraActive : Bool

/-- The `useState` initial values of `useHandTracking` (refs start null). -/
def initialHandState : HandTrackingState :=
  { isLoading := true, error := none, hands := [], isDetecting := false,
    handsInitialized := false, cameraActive := false }

/-- The `useState` initial values of `useFaceMesh` (refs start null). -/
def initialFaceState : FaceTrackingState :=
  { isLoading := true, error := none, faces := [], isDetecting := false,
    faceMeshInitialized := false, cameraActive := false }

/-- The `onResults` callback registered on the Hands instance in
useHandTracking.ts: a non-empty `multiHandLandmarks` replaces `hands`
wholesale (tagging each entry with its handedness, defaulting to Right)
and sets `isDetecting`; otherwise `hands` is cleared and `isDetecting`
reset. -/
def handOnResults (s : HandTrackingState) (results : HandResults) : HandTrackingState :=
  if results.multiHandLandmarks.length > 0 then
    { s with
      hands := results.multiHandLandmarks.mapIdx fun index landmarks =>
        { landmarks := landmarks,
          handedness := handednessAt results.multiHandedness index },
      isDetecting := true }
  else
    { s with hands := [], isDetecting := false }

/-- The `onResults` callback registered on the FaceMesh instance in
useFaceMesh.ts. -/
def faceOnResults (s : FaceTrackingState) (results : FaceResults) : FaceTrackingState :=
  if results.multiFaceLandmarks.length > 0 then
    { s with
      faces := results.multiFaceLandmarks.map fun landmarks => { landmarks := landmarks },
      isDetecting := true }
  else
    { s with faces := [], isDetecting := false }

/-- `startTracking` of useHandTracking.ts: with a null `handsRef` it sets
the error state and returns early; otherwise it stops any existing camera,
creates a new one and starts it. -/
def handStartTracking (s : HandTrackingState) : HandTrackingState :=
  if s.handsInitialized = false then
    { s with error := some "Hand tracking not initialized" }
  else
    { s with cameraActive := true }

/-- `startTracking` of useFaceMesh.ts. -/
def faceStartTracking (s : FaceTrackingState) : FaceTrackingState :=
  if s.faceMeshInitialized = false then
    { s with error := some "Face mesh not initialized" }
  else
    { s with cameraActive := true }

/-- `stopTracking` of useHandTracking.ts: stop and null the camera ref if
present, then clear `hands` and reset `isDetecting` unconditionally. -/
def handStopTracking (s : HandTrackingState) : HandTrackingState :=
  { s with cameraActive := false, hands := [], isDetecting := false }

/-- `stopTracking` of useFaceMesh.ts. -/
def faceStopTracking (s : FaceTrackingState) : FaceTrackingState :=
  { s with cameraActive := false, faces := [], isDetecting := false }

/-- Submitting one frame to the detection capability
(`handsRef.current.send` / `faceMeshRef.current.send`), which either
succeeds or throws; the parameter records which happens for this frame. -/
def sendFrame (sendFails : Bool) : Except String Unit :=
  if sendFails then Except.error "send failed" else Except.ok ()

/-- The camera `onFrame` callback of useHandTracking.ts: when the hands
instance exists, the frame is sent inside a try/catch whose catch branch
only logs, so a per-frame failure is swallowed and no state cell is
touched on either path. -/
def handOnFrame (s : HandTrackingState) (sendFails : Bool) :
    Except String HandTrackingState :=
  if s.handsInitialized then
    match sendFrame sendFails with
    | Except.ok _ => Except.ok s
    | Except.error _ => Except.ok s
  else
    Except.ok s

/-- The camera `onFrame` callback of useFaceMesh.ts: the send is awaited
with no try/catch, so a failing frame performs no state update but the
exception escapes the callback. -/
def faceOnFrame (s : FaceTrackingState) (sendFails : Bool) :
    Except String FaceTrackingState :=
  if s.faceMeshInitialized then
    match sendFrame sendFails with
    | Except.ok _ => Except.ok s
    | Except.error e => Except.error e
  else
    Except.ok s

/-- A session state in which initialization has completed, used as a
concrete post-initialization configuration. -/
def readyFaceState : FaceTrackingState :=
  { isLoading := false, error := none, faces := [], isDetecting := false,
    faceMeshInitialized := true, cameraActive := true }

/-- A concrete detection-results object reporting one hand. -/
def oneHandResults : HandResults :=
  { multiHandLandmarks := [fun _ => { x := 0, y := 0 }],
    multiHandedness := [some Handedness.Left] }

/-- A concrete detection-results object reporting one face. -/
def oneFaceResults : FaceResults :=
  { multiFaceLandmarks := [fun _ => { x := 0, y := 0 }] }

/-- C2: after any `stopTracking()` call, on either session and from any
state — including an already-stopped state and the never-started initial
state — the detections collection is empty and `isDetecting` is false;
`stopTracking` is a total function, so the call never fails. -/
theorem stopTracking_clears (s : HandTrackingState) (t : FaceTrackingState) :
    (handStopTracking s).hands = [] ∧
    (handStopTracking s).isDetecting = false ∧
    (faceStopTracking t).faces = [] ∧
    (faceStopTracking t).isDetecting = false :=
  ⟨rfl, rfl, rfl, rfl⟩

/-- C3: a detection callback reporting zero detections clears the
detections collection and resets `isDetecting` on that same update,
whatever the previous state held — no carry-over, no debouncing. -/
theorem zeroDetections_clears (s : HandTrackingState)
    (hs : List (Option Handedness)) (t : FaceTrackingState) :
    (handOnResults s { multiHandLandmarks := [], multiHandedness := hs }).hands = [] ∧
    (handOnResults s { multiHandLandmarks := [], multiHandedness := hs }).isDetecting = false ∧
    (faceOnResults t { multiFaceLandmarks := [] }).faces = [] ∧
    (faceOnResults t { multiFaceLandmarks := [] }).isDetecting = false :=
  ⟨rfl, rfl, rfl, rfl⟩

/-- C5 counterexample: in the face session a frame-processing failure is
not swallowed — with the face mesh initialized, the `onFrame` callback has
no try/catch, so the send exception escapes the callback instead of being
caught. -/
theorem faceOnFrame_failure_escapes :
    faceOnFrame readyFaceState true = Except.error "send failed" :=
  rfl

/-- C5 amended: in the hand session every per-frame outcome is swallowed
inside `onFrame` and leaves the state untouched; in the face session a
successful frame also leaves the state untouched, but a failing frame,
while performing no state update (so `error` and `isDetecting` are
unchanged), escapes the callback uncaught, leaving continuation of the
loop to the external camera utility. -/
theorem perFrameFailure_behavior :
    (∀ (s : HandTrackingState) (sendFails : Bool),
      handOnFrame s sendFails = Except.ok s) ∧
    (∀ t : FaceTrackingState, faceOnFrame t false = Except.ok t) ∧
    (∀ t : FaceTrackingState, t.faceMeshInitialized = true →
      faceOnFrame t true = Except.error "send failed") := by
  refine ⟨fun s sendFails => ?_, fun t => ?_, fun t ht => ?_⟩
  · cases sendFails <;> simp [handOnFrame, sendFrame]
  · simp [faceOnFrame, sendFrame]
  · simp [faceOnFrame, sendFrame, ht]

/-- Witness for C5: the face-session failure clause instantiated at a
concrete initialized state. -/
theorem perFrameFailure_behavior_witness :
    readyFaceState.faceMeshInitialized = true ∧
    faceOnFrame readyFaceState true = Except.error "send failed" :=
  ⟨rfl, perFrameFailure_behavior.2.2 readyFaceState rfl⟩

/-- C6 counterexample: a late detection callback arriving after
`stopTracking` is applied, not discarded — processing a one-hand result on
the stopped session flips `isDetecting` back to true and repopulates the
detections. -/
theorem lateCallback_applied_after_stop :
    (handOnResults (handStopTracking initialHandState) oneHandResults).isDetecting = true ∧
    (handOnResults (handStopTracking initialHandState) oneHandResults).hands ≠ [] := by
  constructor
  · rfl
  · simp [handOnResults, handStopTracking, initialHandState, oneHandResults]

/-- C6 amended: `stopTracking` does cancel the frame-feeding loop (the
camera handle is released, so no further frames are submitted), but the
detection callback is neither unregistered nor guarded by a liveness
check, so a late in-flight detection result arriving after stop is
processed normally and applied to `detections` and `isDetecting`. -/
theorem stop_cancels_loop_but_not_callbacks (s : HandTrackingState)
    (r : HandResults) (hr : r.multiHandLandmarks ≠ [])
    (t : FaceTrackingState) (q : FaceResults) (hq : q.multiFaceLandmarks ≠ []) :
    (handStopTracking s).cameraActive = false ∧
    (handOnResults (handStopTracking s) r).isDetecting = true ∧
    (faceStopTracking t).cameraActive = false ∧
    (faceOnResults (faceStopTracking t) q).isDetecting = true := by
  refine ⟨rfl, ?_, rfl, ?_⟩
  · simp [handOnResults, List.length_pos.mpr hr]
  · simp [faceOnResults, List.length_pos.mpr hq]

/-- Witness for C6 amended: instantiated at the initial states with the
concrete one-hand and one-face results. -/
theorem stop_cancels_loop_but_not_callbacks_witness :
    oneHandResults.multiHandLandmarks ≠ [] ∧
    oneFaceResults.multiFaceLandmarks ≠ [] ∧
    (handOnResults (handStopTracking initialHandState) oneHandResults).isDetecting = true ∧
    (faceOnResults (faceStopTracking initialFaceState) oneFaceResults).isDetecting = true := by
  have h := stop_cancels_loop_but_not_callbacks initialHandState oneHandResults
    (by simp [oneHandResults]) initialFaceState oneFaceResults (by simp [oneFaceResults])
  exact ⟨by simp [oneHandResults], by simp [oneFaceResults], h.2.1, h.2.2.2⟩

/-- C9: calling `startTracking` on a session whose detection capability
was never initialized (the ref is still null, whether because loading is
in progress or initialization failed) sets a non-null `error`, does not
start a frame-feeding loop (the camera ref is untouched), leaves the
detections state alone, and returns normally — it is a total function, so
nothing is thrown past the boundary. -/
theorem startTracking_uninitialized (s : HandTrackingState) (t : FaceTrackingState)
    (hs : s.handsInitialized = false) (ht : t.faceMeshInitialized = false) :
    (handStartTracking s).error = some "Hand tracking not initialized" ∧
    (handStartTracking s).cameraActive = s.cameraActive ∧
    (handStartTracking s).hands = s.hands ∧
    (handStartTracking s).isDetecting = s.isDetecting ∧
    (faceStartTracking t).error = some "Face mesh not initialized" ∧
    (faceStartTracking t).cameraActive = t.cameraActive ∧
    (faceStartTracking t).faces = t.faces ∧
    (faceStartTracking t).isDetecting = t.isDetecting := by
  simp [handStartTracking, faceStartTracking, hs, ht]

/-- Witness for C9: the never-initialized initial states. -/
theorem startTracking_uninitialized_witness :
    initialHandState.handsInitialized = false ∧
    initialFaceState.faceMeshInitialized = false ∧
    (handStartTracking initialHandState).error = some "Hand tracking not initialized" ∧
    (faceStartTracking initialFaceState).error = some "Face mesh not initialized" := by
  have h := startTracking_uninitialized initialHandState initialFaceState rfl rfl
  exact ⟨rfl, rfl, h.1, h.2.2.2.2.1⟩

/-- C10: `stopTracking` is idempotent on either session — applying it
twice yields exactly the state of applying it once (so in particular all
observable cells agree). -/
theorem stopTracking_idempotent (s : HandTrackingState) (t : FaceTrackingState) :
    handStopTracking (handStopTracking s) = handStopTracking s ∧
    faceStopTracking (faceStopTracking t) = faceStopTracking t :=
  ⟨rfl, rfl⟩

/-! ## Landmark selection helpers (src/hooks) -/

namespace HAND_LANDMARKS

def INDEX_FINGER_MCP : Nat := 5

def INDEX_FINGER_PIP : Nat := 6

def INDEX_FINGER_DIP : Nat := 7

def INDEX_FINGER_TIP : Nat := 8

def MIDDLE_FINGER_MCP : Nat := 9

def MIDDLE_FINGER_PIP : Nat := 10

def RING_FINGER_MCP : Nat := 13

def RING_FINGER_PIP : Nat := 14

end HAND_LANDMARKS

namespace FACE_LANDMARKS

def CHIN_CENTER : Nat := 152

def LEFT_JAW : Nat := 234

def RIGHT_JAW : Nat := 454

def UNDER_CHIN_LEFT : Nat := 172

def UNDER_CHIN_RIGHT : Nat := 397

def LEFT_EAR_TRAGION : Nat := 234

def RIGHT_EAR_TRAGION : Nat := 454

def LEFT_EARLOBE : Nat := 132

def RIGHT_EARLOBE : Nat := 361

def LEFT_EAR_TOP : Nat := 127

def RIGHT_EAR_TOP : Nat := 356

def NOSE_TIP : Nat := 1

def FOREHEAD : Nat := 10

def LEFT_EYE : Nat := 33

def RIGHT_EYE : Nat := 263

end FACE_LANDMARKS

/-- Result record of `getIndexFingerLandmarks` in useHandTracking.ts. -/
structure IndexFingerLandmarks where
  base : Point
  pip : Point
  dip : Point
  tip : Point

/-- `getIndexFingerLandmarks(landmarks)` from useHandTracking.ts. -/
def getIndexFingerLandmarks (landmarks : NormalizedLandmarkList) : IndexFingerLandmarks :=
  { base := landmarks HAND_LANDMARKS.INDEX_FINGER_MCP,
    pip := landmarks HAND_LANDMARKS.INDEX_FINGER_PIP,
    dip := landmarks HAND_LANDMARKS.INDEX_FINGER_DIP,
    tip := landmarks HAND_LANDMARKS.INDEX_FINGER_TIP }

/-- Result record of `getChinLandmarks` in useFaceMesh.ts. -/
structure ChinLandmarks where
  center : Point
  leftJaw : Point
  rightJaw : Point
  underChinLeft : Point
  underChinRight : Point

/-- `getChinLandmarks(landmarks)` from useFaceMesh.ts. -/
def getChinLandmarks (landmarks : NormalizedLandmarkList) : ChinLandmarks :=
  { center := landmarks FACE_LANDMARKS.CHIN_CENTER,
    leftJaw := landmarks FACE_LANDMARKS.LEFT_JAW,
    rightJaw := landmarks FACE_LANDMARKS.RIGHT_JAW,
    underChinLeft := landmarks FACE_LANDMARKS.UNDER_CHIN_LEFT,
    underChinRight := landmarks FACE_LANDMARKS.UNDER_CHIN_RIGHT }

/-- Result record of `getEarLandmarks` in useFaceMesh.ts. -/
structure EarLandmarks where
  leftEar : Point
  rightEar : Point
  leftTragion : Point
  rightTragion : Point

/-- `getEarLandmarks(landmarks)` from useFaceMesh.ts. -/
def getEarLandmarks (landmarks : NormalizedLandmarkList) : EarLandmarks :=
  { leftEar := landmarks FACE_LANDMARKS.LEFT_EARLOBE,
    rightEar := landmarks FACE_LANDMARKS.RIGHT_EARLOBE,
    leftTragion := landmarks FACE_LANDMARKS.LEFT_EAR_TRAGION,
    rightTragion := landmarks FACE_LANDMARKS.RIGHT_EAR_TRAGION }

/-- `getFaceWidth(landmarks)` from useFaceMesh.ts. -/
noncomputable def getFaceWidth (landmarks : NormalizedLandmarkList) : ℝ :=
  let leftJaw := landmarks FACE_LANDMARKS.LEFT_JAW
  let rightJaw := landmarks FACE_LANDMARKS.RIGHT_JAW
  let dx := rightJaw.x - leftJaw.x
  let dy := rightJaw.y - leftJaw.y
  Real.sqrt (dx * dx + dy * dy)

/-! ## Product catalog (src/data/products.ts) -/

/-- The closed set of jewelry types. -/
inductive JewelryType where
  | ring : JewelryType
  | necklace : JewelryType
  | earring : JewelryType
deriving DecidableEq

/-- A catalog entry, mirroring the `Product` interface; the optional
`price` and `description` fields are modelled with `Option`. -/
structure Product where
  id : String
  name : String
  type : JewelryType
  image : String
  baseScale : ℝ
  offsetX : ℝ
  offsetY : ℝ
  price : Option String
  description : Option String

/-- Catalog entry ring-1, Classic Gold Band. -/
noncomputable def ring1 : Product :=
  { id := "ring-1", name := "Classic Gold Band", type := JewelryType.ring,
    image := "/assets/ring1.png", baseScale := 2.5, offsetX := 0, offsetY := 0,
    price := some "₺4,500",
    description := some "Elegant 14K gold band with polished finish" }

/-- Catalog entry necklace-1, Minimal Gold Chain. -/
noncomputable def necklace1 : Product :=
  { id := "necklace-1", name := "Minimal Gold Chain", type := JewelryType.necklace,
    image := "/assets/necklace1.png", baseScale := 1.2, offsetX := 0, offsetY := 30,
    price := some "₺8,500",
    description := some "Delicate chain perfect for everyday wear" }

/-- Catalog entry earring-3, Hoop Earrings — the one catalog earring with
a non-zero `offsetX`. -/
noncomputable def earring3 : Product :=
  { id := "earring-3", name := "Hoop Earrings", type := JewelryType.earring,
    image := "/assets/earring3.png", baseScale := 1.0, offsetX := 5, offsetY := 5,
    price := some "₺4,200", description := some "Modern gold hoops" }

/-! ## Overlay compositor (src/components/ARView.tsx)

The overlay-updating `useEffect` of `ARView` keeps one `OverlayTransform`
state cell for the ring, one for the necklace and two for the earrings;
each is updated from the previous value and the current detections, so
each per-type branch becomes a function of those inputs. The branch for a
non-matching product type leaves the cell untouched. -/

/-- The `OverlayTransform` interface of ARView.tsx: pixel-space position,
scale, rotation in degrees, and a visibility flag. -/
structure OverlayTransform where
  x : ℝ
  y : ℝ
  scale : ℝ
  rotation : ℝ
  visible : Bool

/-- The `useState` initial value of every overlay-transform cell. -/
noncomputable def initialOverlayTransform : OverlayTransform :=
  { x := 0, y := 0, scale := 1, rotation := 0, visible := false }

/-- The ring branch of the ARView overlay effect: with a ring product and
at least one detected hand, compute the transform from the index-finger
base and PIP joint, mirror x, convert to pixels, and apply the product
offsets and scale factor; with a ring product and no hands, keep the
previous fields and clear `visible`; with any other product the cell is
not written. -/
noncomputable def updateRingTransform (product : Product) (hands : List HandLandmarks)
    (containerWidth containerHeight : ℝ) (prev : OverlayTransform) : OverlayTransform :=
  match product.type, hands with
  | JewelryType.ring, hand :: _ =>
    let fingerLandmarks := getIndexFingerLandmarks hand.landmarks
    let p1 : Point := { x := fingerLandmarks.base.x, y := fingerLandmarks.base.y }
    let p2 : Point := { x := fingerLandmarks.pip.x, y := fingerLandmarks.pip.y }
    let transform := computeTransform p1 p2
    let pc := normalizedToPixelCoords (1 - transform.x) transform.y
      containerWidth containerHeight
    { x := pc.1 + product.offsetX,
      y := pc.2 + product.offsetY,
      scale := transform.scale * containerWidth * product.baseScale * 0.15,
      rotation := -(radToDeg transform.rotationRad),
      visible := true }
  | JewelryType.ring, [] => { prev with visible := false }
  | _, _ => prev

/-- The necklace branch of the ARView overlay effect. -/
noncomputable def updateNecklaceTransform (product : Product) (faces : List FaceLandmarks)
    (containerWidth containerHeight : ℝ) (prev : OverlayTransform) : OverlayTransform :=
  match product.type, faces with
  | JewelryType.necklace, face :: _ =>
    let chinLandmarks := getChinLandmarks face.landmarks
    let faceWidth := getFaceWidth face.landmarks
    let transform := computeTransform
      { x := chinLandmarks.leftJaw.x, y := chinLandmarks.leftJaw.y }
      { x := chinLandmarks.rightJaw.x, y := chinLandmarks.rightJaw.y }
    let pc := normalizedToPixelCoords (1 - chinLandmarks.center.x) chinLandmarks.center.y
      containerWidth containerHeight
    { x := pc.1 + product.offsetX,
      y := pc.2 + product.offsetY,
      scale := faceWidth * containerWidth * product.baseScale * 0.8,
      rotation := -(radToDeg transform.rotationRad),
      visible := true }
  | JewelryType.necklace, [] => { prev with visible := false }
  | _, _ => prev

/-- The earring branch of the ARView overlay effect, producing the pair
(left earring cell, right earring cell): with an earring product and a
detected face, both sides share one `earringScale`, each normalized ear x
is mirrored before pixel conversion, `offsetX` is added on the left side
and subtracted on the right, and rotation is fixed at 0; with no face,
both cells keep their fields and clear `visible`. -/
noncomputable def updateEarringTransforms (product : Product) (faces : List FaceLandmarks)
    (containerWidth containerHeight : ℝ) (prevLeft prevRight : OverlayTransform) :
    OverlayTransform × OverlayTransform :=
  match product.type, faces with
  | JewelryType.earring, face :: _ =>
    let earLandmarks := getEarLandmarks face.landmarks
    let faceWidth := getFaceWidth face.landmarks
    let earringScale := faceWidth * containerWidth * product.baseScale * 0.3
    let leftEar := normalizedToPixelCoords (1 - earLandmarks.leftEar.x) earLandmarks.leftEar.y
      containerWidth containerHeight
    let rightEar := normalizedToPixelCoords (1 - earLandmarks.rightEar.x) earLandmarks.rightEar.y
      containerWidth containerHeight
    ({ x := leftEar.1 + product.offsetX,
       y := leftEar.2 + product.offsetY,
       scale := earringScale, rotation := 0, visible := true },
     { x := rightEar.1 - product.offsetX,
       y := rightEar.2 + product.offsetY,
       scale := earringScale, rotation := 0, visible := true })
  | JewelryType.earring, [] =>
    ({ prevLeft with visible := false }, { prevRight with visible := false })
  | _, _ => (prevLeft, prevRight)

/-- A hand all of whose landmarks sit at the same point, so the two
selected ring landmarks coincide. -/
noncomputable def degenerateHand : HandLandmarks :=
  { landmarks := fun _ => { x := 1 / 2, y := 1 / 2 },
    handedness := Handedness.Right }

/-- A concrete detected face used to instantiate the earring scenario. -/
noncomputable def testFace : FaceLandmarks :=
  { landmarks := fun i => { x := (i : ℝ) / 1000, y := 1 / 3 } }

/-- A previous overlay value with distinctive fields, used to observe that
the no-detection branch preserves them. -/
noncomputable def samplePrevOverlay : OverlayTransform :=
  { x := 7, y := 8, scale := 2, rotation := 30, visible := true }

/-- C4 counterexample: with the catalog ring product and a detected hand
whose index-finger base and PIP landmarks coincide (zero
`computeTransform` scale), the compositor still produces a visible
overlay — `visible` is true with scale 0, not false as the claim
states. -/
theorem degenerate_ring_still_visible :
    (updateRingTransform ring1 [degenerateHand] 100 100 initialOverlayTransform).visible
      = true ∧
    (updateRingTransform ring1 [degenerateHand] 100 100 initialOverlayTransform).scale
      = 0 := by
  constructor
  · rfl
  · simp [updateRingTransform, ring1, degenerateHand, getIndexFingerLandmarks,
      computeTransform, Real.sqrt_zero]

/-- C4 amended: for a ring product and a detection whose two selected
landmark points coincide, the compositor raises no error (the update is a
total function) and produces an OverlayTransform with scale 0 whose
`visible` flag is true — a zero-size overlay is emitted rather than the
geometry being treated as degenerate and hidden. -/
theorem degenerate_geometry_rendered (product : Product) (hand : HandLandmarks)
    (rest : List HandLandmarks) (w h : ℝ) (prev : OverlayTransform)
    (hp : product.type = JewelryType.ring)
    (hdeg : hand.landmarks HAND_LANDMARKS.INDEX_FINGER_MCP
      = hand.landmarks HAND_LANDMARKS.INDEX_FINGER_PIP) :
    (updateRingTransform product (hand :: rest) w h prev).visible = true ∧
    (updateRingTransform product (hand :: rest) w h prev).scale = 0 := by
  constructor
  · simp [updateRingTransform, hp]
  · simp [updateRingTransform, hp, getIndexFingerLandmarks, computeTransform,
      hdeg, Real.sqrt_zero]

/-- Witness for C4 amended: the degenerate hand against the catalog ring
product in a 50 by 50 container. -/
theorem degenerate_geometry_rendered_witness :
    ring1.type = JewelryType.ring ∧
    degenerateHand.landmarks HAND_LANDMARKS.INDEX_FINGER_MCP
      = degenerateHand.landmarks HAND_LANDMARKS.INDEX_FINGER_PIP ∧
    (updateRingTransform ring1 [degenerateHand] 50 50 initialOverlayTransform).visible
      = true ∧
    (updateRingTransform ring1 [degenerateHand] 50 50 initialOverlayTransform).scale
      = 0 := by
  have h := degenerate_geometry_rendered ring1 degenerateHand [] 50 50
    initialOverlayTransform rfl rfl
  exact ⟨rfl, rfl, h.1, h.2⟩

/-- C7: an earring product with a detected face yields exactly two overlay
transforms — the pair returned by the earring branch — whose pixel x is
computed from 1 minus the normalized ear x, with `offsetX` added on the
left cell and subtracted on the right cell, sharing one scale, with
rotation fixed at 0 and both visible. -/
theorem earring_pair_spec (product : Product) (face : FaceLandmarks)
    (rest : List FaceLandmarks) (w h : ℝ) (pl pr : OverlayTransform)
    (hp : product.type = JewelryType.earring) :
    ((updateEarringTransforms product (face :: rest) w h pl pr).1.x
      = (1 - (getEarLandmarks face.landmarks).leftEar.x) * w + product.offsetX) ∧
    ((updateEarringTransforms product (face :: rest) w h pl pr).2.x
      = (1 - (getEarLandmarks face.landmarks).rightEar.x) * w - product.offsetX) ∧
    ((updateEarringTransforms product (face :: rest) w h pl pr).1.scale
      = (updateEarringTransforms product (face :: rest) w h pl pr).2.scale) ∧
    ((updateEarringTransforms product (face :: rest) w h pl pr).1.rotation = 0) ∧
    ((updateEarringTransforms product (face :: rest) w h pl pr).2.rotation = 0) ∧
    ((updateEarringTransforms product (face :: rest) w h pl pr).1.visible = true) ∧
    ((updateEarringTransforms product (face :: rest) w h pl pr).2.visible = true) := by
  simp [updateEarringTransforms, hp, normalizedToPixelCoords]

/-- Witness for C7: the catalog hoop earrings (non-zero `offsetX`) against
a concrete face in a 100 by 50 container. -/
theorem earring_pair_spec_witness :
    earring3.type = JewelryType.earring ∧
    ((updateEarringTransforms earring3 [testFace] 100 50
        initialOverlayTransform initialOverlayTransform).1.x
      = (1 - (getEarLandmarks testFace.landmarks).leftEar.x) * 100 + earring3.offsetX) ∧
    ((updateEarringTransforms earring3 [testFace] 100 50
        initialOverlayTransform initialOverlayTransform).2.x
      = (1 - (getEarLandmarks testFace.landmarks).rightEar.x) * 100 - earring3.offsetX) ∧
    ((updateEarringTransforms earring3 [testFace] 100 50
        initialOverlayTransform initialOverlayTransform).1.scale
      = (updateEarringTransforms earring3 [testFace] 100 50
        initialOverlayTransform initialOverlayTransform).2.scale) ∧
    ((updateEarringTransforms earring3 [testFace] 100 50
        initialOverlayTransform initialOverlayTransform).1.rotation = 0) ∧
    ((updateEarringTransforms earring3 [testFace] 100 50
        initialOverlayTransform initialOverlayTransform).2.rotation = 0) ∧
    ((updateEarringTransforms earring3 [testFace] 100 50
        initialOverlayTransform initialOverlayTransform).1.visible = true) ∧
    ((updateEarringTransforms earring3 [testFace] 100 50
        initialOverlayTransform initialOverlayTransform).2.visible = true) := by
  have h := earring_pair_spec earring3 testFace [] 100 50
    initialOverlayTransform initialOverlayTransform rfl
  exact ⟨rfl, h.1, h.2.1, h.2.2.1, h.2.2.2.1, h.2.2.2.2.1, h.2.2.2.2.2.1,
    h.2.2.2.2.2.2⟩

/-- C8: on an update with no detection for the active jewelry type, each
corresponding overlay cell is rewritten to its previous value with only
`visible` flipped to false — x, y, scale and rotation are untouched — and
the cell itself always remains in the output (the update functions are
total and every branch returns a transform for every slot). -/
theorem noDetection_keeps_fields_flips_visible (pr pn pe : Product)
    (prevRing prevNeck prevLeft prevRight : OverlayTransform) (w h : ℝ)
    (hr : pr.type = JewelryType.ring) (hn : pn.type = JewelryType.necklace)
    (he : pe.type = JewelryType.earring) :
    updateRingTransform pr [] w h prevRing = { prevRing with visible := false } ∧
    updateNecklaceTransform pn [] w h prevNeck = { prevNeck with visible := false } ∧
    updateEarringTransforms pe [] w h prevLeft prevRight
      = ({ prevLeft with visible := false }, { prevRight with visible := false }) := by
  refine ⟨?_, ?_, ?_⟩
  · simp [updateRingTransform, hr]
  · simp [updateNecklaceTransform, hn]
  · simp [updateEarringTransforms, he]

/-- Witness for C8: the three catalog products against a previous overlay
with distinctive field values. -/
theorem noDetection_keeps_fields_flips_visible_witness :
    ring1.type = JewelryType.ring ∧
    necklace1.type = JewelryType.necklace ∧
    earring3.type = JewelryType.earring ∧
    updateRingTransform ring1 [] 100 50 samplePrevOverlay
      = { samplePrevOverlay with visible := false } ∧
    updateNecklaceTransform necklace1 [] 100 50 samplePrevOverlay
      = { samplePrevOverlay with visible := false } ∧
    updateEarringTransforms earring3 [] 100 50 samplePrevOverlay initialOverlayTransform
      = ({ samplePrevOverlay with visible := false },
         { initialOverlayTransform with visible := false }) := by
  have h := noDetection_keeps_fields_flips_visible ring1 necklace1 earring3
    samplePrevOverlay samplePrevOverlay samplePrevOverlay initialOverlayTransform
    100 50 rfl rfl rfl
  exact ⟨rfl, rfl, rfl, h.1, h.2.1, h.2.2⟩

end GoldAR
